import Mathlib

/-!
Shallow embedding of docker-notify (main.go) in Lean 4.

The program watches a Docker lifecycle event stream and forwards
notifications to Slack and/or Discord webhooks.  External collaborators
(the Docker client, `io.Reader` log readers, `json.Marshal`, `http.Post`)
are modelled as explicit oracle parameters; everything else is translated
directly from the Go source.
-/

namespace DockerNotify

/-- `Start` is the identifier of the start event (Go const `Start`). -/
def Start : String := "start"

/-- `Die` is the identifier of the die event (Go const `Die`). -/
def Die : String := "die"

/-- Go const `SlackURLEnv`. -/
def SlackURLEnv : String := "SLACK_URL"

/-- Go const `DiscordURLEnv`. -/
def DiscordURLEnv : String := "DISCORD_URL"

/-- Go const `StartColor`: color for started message. -/
def StartColor : String := "#9ccc65"

/-- Go const `DieColor`: color for died message. -/
def DieColor : String := "#c62828"

/-- Go struct `Config`. -/
structure Config where
  SlackURL : String
  DiscordURL : String
deriving Repr, DecidableEq

/-- Go struct `Field` (field of Attachment). -/
structure Field where
  Title : String := ""
  Value : String := ""
  Short : Bool := false
deriving Repr, DecidableEq

/-- Go struct `Attachment`.  Fields not set in a Go struct literal take the
zero value, modelled by the `:= ""` / `:= 0` defaults. -/
structure Attachment where
  Fallback : String := ""
  Pretext : String := ""
  Color : String := ""
  Title : String := ""
  TitleLink : String := ""
  Text : String := ""
  AuthorName : String := ""
  AuthorLink : String := ""
  AuthorIcon : String := ""
  Footer : String := ""
  FooterIcon : String := ""
  TS : Int := 0
  Fields : List Field := []
deriving Repr, DecidableEq

/-- Go struct `Message` (Slack webhook payload). -/
structure Message where
  Text : String := ""
  Attachments : List Attachment := []
deriving Repr, DecidableEq

/-- The actor part of a Docker `events.Message`: the code reads
`msg.Actor.Attributes`, a string map, modelled as an association list. -/
structure Actor where
  Attributes : List (String × String) := []
deriving Repr, DecidableEq

/-- The fields of Docker's `events.Message` that the program reads:
`Status`, `ID`, `From`, `Time` and `Actor.Attributes`. -/
structure EventMessage where
  Status : String := ""
  ID : String := ""
  From : String := ""
  Time : Int := 0
  Actor : Actor := {}
deriving Repr, DecidableEq

/-- Go `NewConfig`: reads `SLACK_URL` and `DISCORD_URL` (passed here as
arguments in place of `os.Getenv`) and rejects the configuration in which
both are empty. -/
def NewConfig (slackURL discordURL : String) : Except String Config :=
  if slackURL = "" ∧ discordURL = "" then
    Except.error (SlackURLEnv ++ " and/or " ++ DiscordURLEnv ++ " must be set")
  else
    Except.ok { SlackURL := slackURL, DiscordURL := discordURL }

/-- The configuration phase of Go `main`: `API_VERSION` is checked first
(`log.Fatal` when empty), then `NewConfig` runs (`log.Fatal` on its error).
Environment values are passed as arguments in place of `os.Getenv`.
An `Except.error` is a fatal startup error raised before any client or
subscription is created. -/
def mainStartup (apiVersion slackURL discordURL : String) : Except String Config :=
  if apiVersion = "" then
    Except.error "API_VERSION must be set as your docker api version"
  else
    NewConfig slackURL discordURL

/-- Go `makeStartMessage`: requires the `name` attribute, then builds a
one-attachment message titled from the name and the image. -/
def makeStartMessage (msg : EventMessage) : Except String Message :=
  match msg.Actor.Attributes.lookup "name" with
  | none => Except.error "no name"
  | some name =>
    Except.ok
      { Attachments :=
          [ { Title := "Container started. name => " ++ name ++ " image => " ++ msg.From,
              Color := StartColor,
              TS := msg.Time } ] }

/-- Go `makeDieMessage`: requires `exitCode` then `name`; builds the
one-attachment message, then reads the whole log reader
(`ioutil.ReadAll`, modelled by the `logRead` outcome: `Except.error` when
reading fails, `Except.ok b` when it yields the bytes `b`) and, on success,
sets the attachment text to the log fenced in triple backticks.  A read
failure makes the whole function return the error. -/
def makeDieMessage (msg : EventMessage) (logRead : Except String String) :
    Except String Message :=
  match msg.Actor.Attributes.lookup "exitCode" with
  | none => Except.error "no exitCode"
  | some exitCode =>
    match msg.Actor.Attributes.lookup "name" with
    | none => Except.error "no name"
    | some name =>
      match logRead with
      | Except.error e => Except.error e
      | Except.ok b =>
        Except.ok
          { Attachments :=
              [ { Title := "Container died. name => " ++ name ++ " image => " ++ msg.From
                    ++ " status code => " ++ exitCode,
                  Color := DieColor,
                  TS := msg.Time,
                  Text := "\x60\x60\x60" ++ b ++ "\x60\x60\x60" } ] }

/-- Outcome of one `http.Post` call: either the transport fails, or a
response (with some status code and body) comes back. -/
inductive HttpResult where
  | transportError (e : String)
  | response (statusCode : Nat) (body : String)
deriving Repr, DecidableEq

/-- Go `(m *Message) post`: returns the transport error of `http.Post` and
nothing else; a completed exchange returns nil whatever the status code. -/
def post (result : HttpResult) : Option String :=
  match result with
  | HttpResult.transportError e => some e
  | HttpResult.response _ _ => none

/-- The HTTP transport as an oracle: URL and request body to outcome. -/
abbrev HttpOracle := String → String → HttpResult

/-- What a run of Go `Send` did: the URLs posted to, in order, and the
errors passed to `log.Println`. -/
structure SendTrace where
  attempts : List String
  logged : List String
deriving Repr, DecidableEq

/-- Go `(m *Message) Send`: marshal the message once (the `marshal` oracle
stands for `json.Marshal`); if the Slack URL is non-empty, post to it and
on error log and return; then, if the Discord URL is non-empty, post to it
and on error log and return.  The early `return` after a failed Slack post
means the Discord post is skipped. -/
def Send (m : Message) (config : Config)
    (marshal : Message → Except String String) (http : HttpOracle) : SendTrace :=
  match marshal m with
  | Except.error e => { attempts := [], logged := [e] }
  | Except.ok b =>
    if config.SlackURL ≠ "" then
      match post (http config.SlackURL b) with
      | some e => { attempts := [config.SlackURL], logged := [e] }
      | none =>
        if config.DiscordURL ≠ "" then
          match post (http config.DiscordURL b) with
          | some e => { attempts := [config.SlackURL, config.DiscordURL], logged := [e] }
          | none => { attempts := [config.SlackURL, config.DiscordURL], logged := [] }
        else
          { attempts := [config.SlackURL], logged := [] }
    else
      if config.DiscordURL ≠ "" then
        match post (http config.DiscordURL b) with
        | some e => { attempts := [config.DiscordURL], logged := [e] }
        | none => { attempts := [config.DiscordURL], logged := [] }
      else
        { attempts := [], logged := [] }

/-- `cli.ContainerLogs` followed by the reader's `ioutil.ReadAll`, as an
oracle keyed by the container ID: the outer `Except.error` is
`ContainerLogs` failing to return a reader; the inner value is the read
outcome fed to `makeDieMessage`. -/
abbrev LogsOracle := String → Except String (Except String String)

/-- One arrival inside the `select` of Go `start`: either a message on the
event channel or an error on the error channel. -/
inductive ChanInput where
  | msg (m : EventMessage)
  | err (e : String)
deriving Repr, DecidableEq

/-- The body of one `case msg := <-msgChan` iteration of Go `start`:
classify the event.  Returns the payload spawned by `go m.Send(config)`
(if any) and the errors passed to `log.Println`.  A status other than
`start` or `die` matches no switch case and does nothing. -/
def processOneEvent (cl : LogsOracle) (msg : EventMessage) :
    Option Message × List String :=
  if msg.Status = Start then
    match makeStartMessage msg with
    | Except.error e => (none, [e])
    | Except.ok m => (some m, [])
  else if msg.Status = Die then
    match cl msg.ID with
    | Except.error e => (none, [e])
    | Except.ok readOutcome =>
      match makeDieMessage msg readOutcome with
      | Except.error e => (none, [e])
      | Except.ok m => (some m, [])
  else
    (none, [])

/-- What a run of the `L:` loop of Go `start` did: the `go m.Send(config)`
tasks spawned in order, the errors logged, and the error received on the
error channel (the loop breaks at the first one and `start` returns it;
`none` when the finite input trace carried no error). -/
structure LoopResult where
  spawned : List (Message × Config)
  logged : List String
  result : Option String
deriving Repr, DecidableEq

/-- The `L:` loop of Go `start` over a finite trace of channel arrivals:
each event message is classified (a produced payload is spawned as a
`go m.Send(config)` task and the loop immediately moves on); the first
error-channel arrival breaks the loop and becomes `start`'s return value. -/
def startLoop (config : Config) (cl : LogsOracle) : List ChanInput → LoopResult
  | [] => { spawned := [], logged := [], result := none }
  | ChanInput.err e :: _ => { spawned := [], logged := [], result := some e }
  | ChanInput.msg msg :: rest =>
    let step := processOneEvent cl msg
    let tail := startLoop config cl rest
    { spawned := (step.1.map fun m => (m, config)).toList ++ tail.spawned,
      logged := step.2 ++ tail.logged,
      result := tail.result }

/-- Result of one call of Go `start`: the loop's outcome plus the fact that
the deferred `cancel()` of the subscription context runs on every return
path. -/
structure StartResult where
  loop : LoopResult
  ctxCanceled : Bool
deriving Repr, DecidableEq

/-- Go `start`: open a cancellable context and a subscription (the trace of
its two channels is the argument), run the loop, and cancel the context on
return (`defer cancel()`). -/
def start (config : Config) (cl : LogsOracle) (trace : List ChanInput) : StartResult :=
  { loop := startLoop config cl trace, ctxCanceled := true }

/-- The unconditional `for` loop of Go `main`: every iteration calls
`start` on a fresh subscription (here: the next trace), logs its returned
error if any, and loops again; it never exits.  Over a finite list of
subscription traces it therefore runs `start` once per trace. -/
def mainRun (config : Config) (cl : LogsOracle) :
    List (List ChanInput) → List StartResult
  | [] => []
  | trace :: rest => start config cl trace :: mainRun config cl rest

/-! ## Theorems about the claims -/

/-- C1: the claim as stated is false.  With both endpoints non-empty
(`"s"` and `"d"`), marshalling succeeding, and the Slack post failing with
a transport error, `Send` attempts only the Slack URL: the Discord
endpoint receives no delivery attempt, so a failure on one endpoint does
prevent the attempt to the other. -/
theorem C1_counterexample :
    ("s" : String) ≠ "" ∧ ("d" : String) ≠ "" ∧
    (Send {} { SlackURL := "s", DiscordURL := "d" } (fun _ => Except.ok "body")
        (fun u _ => if u = "s" then HttpResult.transportError "connection refused"
                    else HttpResult.response 200 "ok")).attempts = ["s"] :=
  ⟨by decide, by decide, rfl⟩

/-- C1 (amended): `Send` attempts the endpoints in order, Slack first.
With both endpoints non-empty and marshalling succeeding, the Slack
endpoint is always attempted, and the Discord endpoint is attempted
exactly when the Slack post succeeds: a Slack failure is logged and
prevents the Discord attempt, while a Discord failure cannot affect the
already-made Slack attempt. -/
theorem C1_send_ordered_attempts (m : Message) (cfg : Config)
    (marshal : Message → Except String String) (http : HttpOracle) (b : String)
    (hm : marshal m = Except.ok b) (hs : cfg.SlackURL ≠ "") (hd : cfg.DiscordURL ≠ "") :
    (Send m cfg marshal http).attempts =
      (match post (http cfg.SlackURL b) with
       | none => [cfg.SlackURL, cfg.DiscordURL]
       | some _ => [cfg.SlackURL]) := by
  cases hpost : post (http cfg.SlackURL b) with
  | none =>
    simp only [Send, hm, hs, hd, hpost]
    cases post (http cfg.DiscordURL b) <;> simp [hs, hd]
  | some e => simp [Send, hm, hs, hpost]

/-- C1 amended-theorem witness at a concrete input: both endpoints set,
every post succeeding, both attempted in order. -/
theorem C1_send_ordered_attempts_witness :
    (Send {} { SlackURL := "s", DiscordURL := "d" } (fun _ => Except.ok "body")
        (fun _ _ => HttpResult.response 200 "ok")).attempts = ["s", "d"] := by
  have h := C1_send_ordered_attempts {} { SlackURL := "s", DiscordURL := "d" }
    (fun _ => Except.ok "body") (fun _ _ => HttpResult.response 200 "ok") "body"
    rfl (by decide) (by decide)
  exact h

/-- C2: the claim as stated is false.  A die event with both `name` and
`exitCode` present whose log fetch fails — whether obtaining the reader
fails or reading from it fails — yields no spawned payload at all: the
event is dropped, not dispatched with an empty body. -/
theorem C2_counterexample :
    (startLoop { SlackURL := "s", DiscordURL := "d" } (fun _ => Except.error "log unavailable")
        [ChanInput.msg { Status := "die", ID := "c1", From := "img", Time := 5,
                         Actor := { Attributes := [("name", "w"), ("exitCode", "1")] } }]).spawned
      = [] ∧
    (startLoop { SlackURL := "s", DiscordURL := "d" }
        (fun _ => Except.ok (Except.error "read failed"))
        [ChanInput.msg { Status := "die", ID := "c1", From := "img", Time := 5,
                         Actor := { Attributes := [("name", "w"), ("exitCode", "1")] } }]).spawned
      = [] :=
  ⟨rfl, rfl⟩

/-- C2 (amended): for a die event with `name` and `exitCode` present, if
fetching the container logs fails (either obtaining the log reader fails
or reading from it fails), no payload is produced or dispatched for that
event: the error is logged, the event is dropped, and the loop continues
with the remaining events exactly as if the event had not arrived (apart
from the log line). -/
theorem C2_log_fetch_failure_drops_event (cfg : Config) (cl : LogsOracle)
    (msg : EventMessage) (rest : List ChanInput) (n c e : String)
    (hst : msg.Status = Die)
    (hc : msg.Actor.Attributes.lookup "exitCode" = some c)
    (hn : msg.Actor.Attributes.lookup "name" = some n)
    (hfail : cl msg.ID = Except.error e ∨ cl msg.ID = Except.ok (Except.error e)) :
    processOneEvent cl msg = (none, [e]) ∧
    startLoop cfg cl (ChanInput.msg msg :: rest) =
      { spawned := (startLoop cfg cl rest).spawned,
        logged := e :: (startLoop cfg cl rest).logged,
        result := (startLoop cfg cl rest).result } := by
  have hp : processOneEvent cl msg = (none, [e]) := by
    rcases hfail with h | h
    · simp [processOneEvent, hst, Start, Die, h]
    · simp [processOneEvent, hst, Start, Die, h, makeDieMessage, hc, hn]
  exact ⟨hp, by simp [startLoop, hp]⟩

/-- C2 amended-theorem witness: a concrete die event whose log reader
cannot be obtained is logged and dropped, and the loop continues. -/
theorem C2_log_fetch_failure_drops_event_witness :
    processOneEvent (fun _ => Except.error "log unavailable")
        { Status := "die", ID := "c1", From := "img", Time := 5,
          Actor := { Attributes := [("name", "w"), ("exitCode", "1")] } }
      = (none, ["log unavailable"]) := by
  have h := C2_log_fetch_failure_drops_event { SlackURL := "s", DiscordURL := "d" }
    (fun _ => Except.error "log unavailable")
    { Status := "die", ID := "c1", From := "img", Time := 5,
      Actor := { Attributes := [("name", "w"), ("exitCode", "1")] } }
    [] "w" "1" "log unavailable" rfl rfl rfl (Or.inl rfl)
  exact h.1

/-- C3: for every die event whose attributes contain `exitCode` and
`name`, and every log content `L` successfully read, `makeDieMessage`
succeeds with exactly one attachment: color `#c62828`, title
`Container died. name => <name> image => <from> status code => <exitCode>`,
timestamp the event's time, and text `L` fenced in triple backticks. -/
theorem C3_makeDieMessage_payload (msg : EventMessage) (n c L : String)
    (hst : msg.Status = Die)
    (hc : msg.Actor.Attributes.lookup "exitCode" = some c)
    (hn : msg.Actor.Attributes.lookup "name" = some n) :
    makeDieMessage msg (Except.ok L) =
      Except.ok
        { Attachments :=
            [ { Color := "#c62828",
                Title := "Container died. name => " ++ n ++ " image => " ++ msg.From
                  ++ " status code => " ++ c,
                TS := msg.Time,
                Text := "\x60\x60\x60" ++ L ++ "\x60\x60\x60" } ] } := by
  simp [makeDieMessage, hc, hn, DieColor]

/-- C3 witness: the spec's end-to-end scenario 2. -/
theorem C3_makeDieMessage_payload_witness :
    makeDieMessage
        { Status := "die", From := "nginx:latest", Time := 2000,
          Actor := { Attributes := [("name", "web1"), ("exitCode", "137")] } }
        (Except.ok "oom-killed") =
      Except.ok
        { Attachments :=
            [ { Color := "#c62828",
                Title := "Container died. name => web1 image => nginx:latest status code => 137",
                TS := 2000,
                Text := "\x60\x60\x60oom-killed\x60\x60\x60" } ] } := by
  have h := C3_makeDieMessage_payload
    { Status := "die", From := "nginx:latest", Time := 2000,
      Actor := { Attributes := [("name", "web1"), ("exitCode", "137")] } }
    "web1" "137" "oom-killed" rfl rfl rfl
  exact h

/-- C4: for every start event whose attributes contain `name`,
`makeStartMessage` succeeds with exactly one attachment: color `#9ccc65`,
title `Container started. name => <name> image => <from>`, timestamp the
event's time, and empty body text. -/
theorem C4_makeStartMessage_payload (msg : EventMessage) (n : String)
    (hst : msg.Status = Start)
    (hn : msg.Actor.Attributes.lookup "name" = some n) :
    makeStartMessage msg =
      Except.ok
        { Attachments :=
            [ { Color := "#9ccc65",
                Title := "Container started. name => " ++ n ++ " image => " ++ msg.From,
                TS := msg.Time,
                Text := "" } ] } := by
  simp [makeStartMessage, hn, StartColor]

/-- C4 witness: the spec's end-to-end scenario 1. -/
theorem C4_makeStartMessage_payload_witness :
    makeStartMessage
        { Status := "start", From := "nginx:latest", Time := 1000,
          Actor := { Attributes := [("name", "web1")] } } =
      Except.ok
        { Attachments :=
            [ { Color := "#9ccc65",
                Title := "Container started. name => web1 image => nginx:latest",
                TS := 1000,
                Text := "" } ] } := by
  have h := C4_makeStartMessage_payload
    { Status := "start", From := "nginx:latest", Time := 1000,
      Actor := { Attributes := [("name", "web1")] } } "web1" rfl rfl
  exact h

/-- C5: for every start event whose attributes lack `name`,
`makeStartMessage` fails with the missing-attribute error and produces no
payload, and the watch loop logs that error, drops exactly that event and
continues with the remaining events. -/
theorem C5_missing_name_drops_event (cfg : Config) (cl : LogsOracle)
    (msg : EventMessage) (rest : List ChanInput)
    (hst : msg.Status = Start)
    (hn : msg.Actor.Attributes.lookup "name" = none) :
    makeStartMessage msg = Except.error "no name" ∧
    startLoop cfg cl (ChanInput.msg msg :: rest) =
      { spawned := (startLoop cfg cl rest).spawned,
        logged := "no name" :: (startLoop cfg cl rest).logged,
        result := (startLoop cfg cl rest).result } := by
  have hm : makeStartMessage msg = Except.error "no name" := by
    simp [makeStartMessage, hn]
  have hp : processOneEvent cl msg = (none, ["no name"]) := by
    simp [processOneEvent, hst, hm]
  exact ⟨hm, by simp [startLoop, hp]⟩

/-- C5 witness: a concrete nameless start event is logged as `no name`
and dropped while the rest of the trace is still processed. -/
theorem C5_missing_name_drops_event_witness :
    makeStartMessage { Status := "start", ID := "c1", From := "img", Time := 5 }
      = Except.error "no name" := by
  have h := C5_missing_name_drops_event { SlackURL := "s", DiscordURL := "d" }
    (fun _ => Except.ok (Except.ok ""))
    { Status := "start", ID := "c1", From := "img", Time := 5 } [] rfl rfl
  exact h.1

/-- C6: an event whose status is neither `start` nor `die` produces no
payload, no log line and no error, and processing it leaves the loop in
exactly the state of never having received it. -/
theorem C6_other_status_ignored (cfg : Config) (cl : LogsOracle)
    (msg : EventMessage) (rest : List ChanInput)
    (h1 : msg.Status ≠ Start) (h2 : msg.Status ≠ Die) :
    processOneEvent cl msg = (none, []) ∧
    startLoop cfg cl (ChanInput.msg msg :: rest) = startLoop cfg cl rest := by
  have hp : processOneEvent cl msg = (none, []) := by
    simp [processOneEvent, h1, h2]
  exact ⟨hp, by simp [startLoop, hp]⟩

/-- C6 witness: a concrete `create` event leaves the loop unchanged. -/
theorem C6_other_status_ignored_witness :
    startLoop { SlackURL := "s", DiscordURL := "d" } (fun _ => Except.ok (Except.ok ""))
        [ChanInput.msg { Status := "create" }]
      = startLoop { SlackURL := "s", DiscordURL := "d" } (fun _ => Except.ok (Except.ok "")) [] := by
  have h := C6_other_status_ignored { SlackURL := "s", DiscordURL := "d" }
    (fun _ => Except.ok (Except.ok "")) { Status := "create" } []
    (by decide) (by decide)
  exact h.2

/-- C7: startup fails with a fatal configuration error — raised before any
client or subscription is created — exactly when `API_VERSION` is empty or
both `SLACK_URL` and `DISCORD_URL` are empty; otherwise the configuration
is accepted and carries exactly the two given endpoints, so an all-empty
sink configuration is rejected at startup, never per event. -/
theorem C7_startup_validation (a s d : String) :
    ((∃ e, mainStartup a s d = Except.error e) ↔ (a = "" ∨ (s = "" ∧ d = ""))) ∧
    (¬(a = "" ∨ (s = "" ∧ d = "")) →
      mainStartup a s d = Except.ok { SlackURL := s, DiscordURL := d }) := by
  have hok : ¬(a = "" ∨ (s = "" ∧ d = "")) →
      mainStartup a s d = Except.ok { SlackURL := s, DiscordURL := d } := by
    intro h
    have ha : ¬a = "" := fun heq => h (Or.inl heq)
    have hsd : ¬(s = "" ∧ d = "") := fun hand => h (Or.inr hand)
    simp [mainStartup, NewConfig, ha, hsd]
  refine ⟨⟨?_, ?_⟩, hok⟩
  · rintro ⟨e, he⟩
    by_contra hcon
    rw [hok hcon] at he
    exact Except.noConfusion he
  · intro h
    by_cases ha : a = ""
    · exact ⟨"API_VERSION must be set as your docker api version", by simp [mainStartup, ha]⟩
    · have hsd : s = "" ∧ d = "" := by
        rcases h with h1 | h2
        · exact absurd h1 ha
        · exact h2
      exact ⟨SlackURLEnv ++ " and/or " ++ DiscordURLEnv ++ " must be set",
        by simp [mainStartup, NewConfig, ha, hsd.1, hsd.2]⟩

/-- C8: an arrival on the error channel makes the streaming loop break and
`start` return that error (never terminating anything beyond the current
subscription), the deferred context cancel runs, the outer loop of `main`
runs `start` once per subscription trace — reconnecting after every
return — and `start` returns an error only when the error channel fired:
per-event classification failures and per-delivery failures are logged
inside the loop and never become its result. -/
theorem C8_source_error_recovery (cfg : Config) (cl : LogsOracle) (e : String)
    (rest : List ChanInput) (traces : List (List ChanInput)) :
    (start cfg cl (ChanInput.err e :: rest)).loop.result = some e ∧
    (start cfg cl (ChanInput.err e :: rest)).ctxCanceled = true ∧
    mainRun cfg cl traces = traces.map (start cfg cl) ∧
    (∀ tr : List ChanInput, (∀ e', ChanInput.err e' ∉ tr) →
      (start cfg cl tr).loop.result = none) := by
  refine ⟨rfl, rfl, ?_, ?_⟩
  · induction traces with
    | nil => rfl
    | cons t ts ih => simp [mainRun, ih]
  · intro tr
    induction tr with
    | nil => intro _; rfl
    | cons i rest ih =>
      intro h
      cases i with
      | err e' => exact absurd (List.mem_cons_self _ _) (h e')
      | msg m =>
        have := ih fun e' hmem => h e' (List.mem_cons_of_mem _ hmem)
        simpa [start, startLoop] using this

/-- C9: when classifying an event yields a payload, the loop records the
`go m.Send(config)` task — the payload handed to the dispatcher together
with the sink configuration — and the rest of the trace is consumed with
its spawned tasks, log lines and result exactly as they would be without
this event: the handoff is fire-and-forget, so intake never waits on a
delivery (`Send`, which alone consumes the HTTP transport, is not invoked
by the loop at all). -/
theorem C9_nonblocking_handoff (cfg : Config) (cl : LogsOracle)
    (msg : EventMessage) (m : Message) (rest : List ChanInput)
    (h : processOneEvent cl msg = (some m, [])) :
    startLoop cfg cl (ChanInput.msg msg :: rest) =
      { spawned := (m, cfg) :: (startLoop cfg cl rest).spawned,
        logged := (startLoop cfg cl rest).logged,
        result := (startLoop cfg cl rest).result } := by
  simp [startLoop, h]

/-- C9 witness: a concrete start event's payload is spawned and the loop
continues into the rest of the trace. -/
theorem C9_nonblocking_handoff_witness :
    startLoop { SlackURL := "s", DiscordURL := "d" } (fun _ => Except.ok (Except.ok ""))
        [ChanInput.msg { Status := "start", From := "img",
                         Actor := { Attributes := [("name", "w")] } }] =
      { spawned :=
          [ ({ Attachments :=
                [ { Color := "#9ccc65", Title := "Container started. name => w image => img",
                    TS := 0, Text := "" } ] },
             { SlackURL := "s", DiscordURL := "d" }) ],
        logged := [], result := none } := by
  have h := C9_nonblocking_handoff { SlackURL := "s", DiscordURL := "d" }
    (fun _ => Except.ok (Except.ok ""))
    { Status := "start", From := "img", Actor := { Attributes := [("name", "w")] } }
    { Attachments :=
        [ { Color := "#9ccc65", Title := "Container started. name => w image => img",
            TS := 0, Text := "" } ] }
    [] rfl
  exact h

/-- C10: `post` returns no error for any completed HTTP exchange, whatever
the status code, and returns exactly the transport error otherwise; hence
when every endpoint answers with some HTTP response — even an error status
such as 500 — `Send` logs no delivery error at all. -/
theorem C10_post_ignores_status (rb e : String) (code : Nat)
    (m : Message) (cfg : Config) (marshal : Message → Except String String)
    (http : HttpOracle) (b : String)
    (hm : marshal m = Except.ok b)
    (hhttp : ∀ url body, ∃ c r, http url body = HttpResult.response c r) :
    post (HttpResult.response code rb) = none ∧
    post (HttpResult.transportError e) = some e ∧
    (Send m cfg marshal http).logged = [] := by
  refine ⟨rfl, rfl, ?_⟩
  obtain ⟨cs, rs, hs⟩ := hhttp cfg.SlackURL b
  obtain ⟨cd, rd, hd⟩ := hhttp cfg.DiscordURL b
  by_cases h1 : cfg.SlackURL = "" <;> by_cases h2 : cfg.DiscordURL = "" <;>
    simp [Send, hm, hs, hd, post, h1, h2]

/-- C10 witness: a sink answering 500 to every post is treated as a
successful delivery and nothing is logged. -/
theorem C10_post_ignores_status_witness :
    post (HttpResult.response 500 "err") = none ∧
    (Send {} { SlackURL := "s", DiscordURL := "d" } (fun _ => Except.ok "body")
        (fun _ _ => HttpResult.response 500 "err")).logged = [] := by
  have h := C10_post_ignores_status "err" "boom" 500 {}
    { SlackURL := "s", DiscordURL := "d" } (fun _ => Except.ok "body")
    (fun _ _ => HttpResult.response 500 "err") "body" rfl
    (fun _ _ => ⟨500, "err", rfl⟩)
  exact ⟨h.1, h.2.2⟩

end DockerNotify
